import Mathlib

/-!
Verification of jochiang/ASCII-Artify `server.py`.

The program is a 24-line wrapper over CPython's `http.server` /
`socketserver`: a `CORSRequestHandler` subclass of
`SimpleHTTPRequestHandler` overrides `end_headers` to inject two fixed
response headers, and the module body starts a `socketserver.TCPServer`
on port 8080 and calls `serve_forever`.

The embedding below models, by explicit state passing, the fields of
`http.server.BaseHTTPRequestHandler` that the header machinery reads or
writes (`request_version`, `_headers_buffer`, the bytes written to the
response stream, `close_connection`, and the log stream), the base-class
methods `send_header`, `flush_headers`, `end_headers`,
`send_response_only`, `send_response` and `send_error` that the program
inherits, and the override `CORSRequestHandler.end_headers` from
`src/server.py` lines 13-18.
-/

/-- Distinguished request version string: CPython suppresses the status
line and all header lines when `self.request_version == "HTTP/0.9"`. -/
def HTTP09 : String := "HTTP/0.9"

/-- Per-response handler state: the fields of
`http.server.BaseHTTPRequestHandler` touched by the header machinery.
`wire` records the header-block lines written to the client socket, in
order; `log` records log lines (CPython writes them to stderr). -/
structure HandlerState where
  requestVersion : String
  requestLine : String
  headersBuffer : List String
  wire : List String
  closeConnection : Bool
  log : List String
deriving Repr, DecidableEq

/-- Fresh per-request state, as set up by
`BaseHTTPRequestHandler.handle_one_request` after parsing the request
line (nothing buffered, nothing written; `handle` initializes
`close_connection = True` before parsing). -/
def initState (version requestLine : String) : HandlerState :=
  { requestVersion := version
    requestLine := requestLine
    headersBuffer := []
    wire := []
    closeConnection := true
    log := [] }

/-- Models Python `str.lower()` for a single ASCII character. -/
def lowerChar (c : Char) : Char :=
  if 65 ≤ c.toNat ∧ c.toNat ≤ 90 then Char.ofNat (c.toNat + 32) else c

/-- Models Python `str.lower()` (the header keywords and values compared
by `send_header` are ASCII). -/
def lowerStr (s : String) : String :=
  ⟨s.data.map lowerChar⟩

/-- Models CPython `BaseHTTPRequestHandler.send_header`: when the request
version is not HTTP/0.9, append the line `"keyword: value\r\n"` to
`_headers_buffer`; independently, a `Connection` header (case-insensitive)
updates `close_connection`. -/
def send_header (s : HandlerState) (keyword value : String) : HandlerState :=
  { s with
    headersBuffer :=
      if s.requestVersion ≠ HTTP09 then
        s.headersBuffer ++ [keyword ++ ": " ++ value ++ "\r\n"]
      else
        s.headersBuffer
    closeConnection :=
      if lowerStr keyword = "connection" then
        if lowerStr value = "close" then true
        else if lowerStr value = "keep-alive" then false
        else s.closeConnection
      else s.closeConnection }

/-- Models CPython `BaseHTTPRequestHandler.flush_headers`: write the
buffered header lines to the socket and empty the buffer. -/
def flush_headers (s : HandlerState) : HandlerState :=
  { s with wire := s.wire ++ s.headersBuffer, headersBuffer := [] }

/-- Models CPython `BaseHTTPRequestHandler.end_headers` (the base-class
method): when the request version is not HTTP/0.9, buffer the blank line
terminating the header block and flush; for HTTP/0.9 do nothing. -/
def base_end_headers (s : HandlerState) : HandlerState :=
  if s.requestVersion ≠ HTTP09 then
    flush_headers { s with headersBuffer := s.headersBuffer ++ ["\r\n"] }
  else s

/-- The first injected header line, as emitted on the wire. -/
def COOP_line : String := "Cross-Origin-Opener-Policy: same-origin\r\n"

/-- The second injected header line, as emitted on the wire. -/
def COEP_line : String := "Cross-Origin-Embedder-Policy: credentialless\r\n"

/-- Embeds `CORSRequestHandler.end_headers` (src/server.py lines 13-18):
send the two fixed headers, then delegate to the base-class
`end_headers`. -/
def CORS_end_headers (s : HandlerState) : HandlerState :=
  base_end_headers
    (send_header
      (send_header s "Cross-Origin-Opener-Policy" "same-origin")
      "Cross-Origin-Embedder-Policy" "credentialless")

/-- The header line a `send_header` call with this keyword/value pair
buffers. -/
def headerLine (kv : String × String) : String :=
  kv.1 ++ ": " ++ kv.2 ++ "\r\n"

/-- A sequence of `send_header` calls, one per keyword/value pair. -/
def send_headers (s : HandlerState) : List (String × String) → HandlerState
  | [] => s
  | kv :: rest => send_headers (send_header s kv.1 kv.2) rest

theorem send_header_not_connection (s : HandlerState) (k v : String)
    (hk : lowerStr k ≠ "connection") :
    send_header s k v =
      { s with
        headersBuffer :=
          if s.requestVersion ≠ HTTP09 then
            s.headersBuffer ++ [k ++ ": " ++ v ++ "\r\n"]
          else s.headersBuffer } := by
  simp [send_header, hk]

theorem CORS_end_headers_spec (s : HandlerState) (h : s.requestVersion ≠ HTTP09) :
    CORS_end_headers s =
      { s with
        headersBuffer := []
        wire := s.wire ++ s.headersBuffer ++ [COOP_line, COEP_line, "\r\n"] } := by
  have h1 : lowerStr "Cross-Origin-Opener-Policy" ≠ "connection" := by decide
  have h2 : lowerStr "Cross-Origin-Embedder-Policy" ≠ "connection" := by decide
  simp [CORS_end_headers, send_header_not_connection _ _ _ h1,
    send_header_not_connection _ _ _ h2, base_end_headers, flush_headers, h,
    COOP_line, COEP_line]

theorem base_end_headers_spec (s : HandlerState) (h : s.requestVersion ≠ HTTP09) :
    base_end_headers s =
      { s with
        headersBuffer := []
        wire := s.wire ++ s.headersBuffer ++ ["\r\n"] } := by
  simp [base_end_headers, flush_headers, h]

theorem CORS_end_headers_http09 (s : HandlerState) (h : s.requestVersion = HTTP09) :
    CORS_end_headers s = s := by
  have h1 : lowerStr "Cross-Origin-Opener-Policy" ≠ "connection" := by decide
  have h2 : lowerStr "Cross-Origin-Embedder-Policy" ≠ "connection" := by decide
  obtain ⟨rv, rl, hb, w, cc, lg⟩ := s
  simp only [HandlerState.requestVersion] at h
  subst h
  simp [CORS_end_headers, send_header, base_end_headers, h1, h2]

/-- Default `protocol_version` of `BaseHTTPRequestHandler`, used in the
status line. -/
def protocol_version : String := "HTTP/1.0"

/-- The status line as placed in the header buffer:
`"<protocol> <code> <message>\r\n"`. -/
def statusLine (code : Nat) (message : String) : String :=
  protocol_version ++ " " ++ toString code ++ " " ++ message ++ "\r\n"

/-- Models CPython `BaseHTTPRequestHandler.send_response_only`: when the
request version is not HTTP/0.9, buffer the status line; for HTTP/0.9
buffer nothing. -/
def send_response_only (s : HandlerState) (code : Nat) (message : String) : HandlerState :=
  if s.requestVersion ≠ HTTP09 then
    { s with headersBuffer := s.headersBuffer ++ [statusLine code message] }
  else s

/-- Models CPython `BaseHTTPRequestHandler.log_request`, which logs the
request line and the status code (to stderr, never to the response). -/
def log_request (s : HandlerState) (code : Nat) : HandlerState :=
  { s with log := s.log ++ [s.requestLine ++ " " ++ toString code ++ " -"] }

/-- Models CPython `BaseHTTPRequestHandler.log_error` as called by
`send_error`. -/
def log_error (s : HandlerState) (code : Nat) (message : String) : HandlerState :=
  { s with log := s.log ++ ["code " ++ toString code ++ ", message " ++ message] }

/-- Models CPython `BaseHTTPRequestHandler.send_response`: log the
request, buffer the status line, then the `Server` and `Date` headers
(whose runtime-dependent values are parameters here). -/
def send_response (s : HandlerState) (code : Nat)
    (message serverVersion dateTime : String) : HandlerState :=
  send_header
    (send_header (send_response_only (log_request s code) code message)
      "Server" serverVersion)
    "Date" dateTime

/-- Models CPython `BaseHTTPRequestHandler.send_error` instantiated at
code 404 and message "File not found", as raised by
`SimpleHTTPRequestHandler.send_head` for a GET whose path resolves to no
file: log the error, send the 404 response line, the `Connection: close`
header, the error-body content headers, then call `self.end_headers()` —
which on a `CORSRequestHandler` instance dispatches to the override, so
the `endHeaders` implementation is a parameter. -/
def send_error_404 (endHeaders : HandlerState → HandlerState)
    (s : HandlerState) (serverVersion dateTime : String) (bodyLen : Nat) : HandlerState :=
  endHeaders
    (send_header
      (send_header
        (send_header
          (send_response (log_error s 404 "File not found") 404 "File not found"
            serverVersion dateTime)
          "Connection" "close")
        "Content-Type" "text/html;charset=utf-8")
      "Content-Length" (toString bodyLen))

/-- Header-block lines put on the wire for a GET of an existing file:
`SimpleHTTPRequestHandler.send_head` calls `send_response(200)`, then
`send_header` for `Content-type`, `Content-Length` and `Last-Modified`,
then `end_headers` — the `CORSRequestHandler` override. -/
def GET_ok_wire (version requestLine serverVersion dateTime ctype clen lastmod : String) :
    List String :=
  (CORS_end_headers
    (send_headers (send_response (initState version requestLine) 200 "OK" serverVersion dateTime)
      [("Content-type", ctype), ("Content-Length", clen), ("Last-Modified", lastmod)])).wire

/-- A request together with the base handler's per-request choices (the
status code, message and header writes the base file-serving behavior
performs for it before calling `end_headers`); for a fixed served
directory these are a function of the request alone. -/
structure Request where
  version : String
  requestLine : String
  code : Nat
  message : String
  serverVersion : String
  dateTime : String
  baseHeaders : List (String × String)
deriving Repr, DecidableEq

/-- Full header-block wire output of one request: fresh handler state,
the base handler's status line and header writes, then the overridden
`end_headers`. -/
def handleRequest (r : Request) : List String :=
  (CORS_end_headers
    (send_headers
      (send_response (initState r.version r.requestLine) r.code r.message
        r.serverVersion r.dateTime)
      r.baseHeaders)).wire

/-- Models the serving loop: `socketserver.TCPServer` constructs a fresh
`CORSRequestHandler` instance for every accepted connection, so no
handler state survives from one request to the next. -/
def serveLoop : List Request → List (List String)
  | [] => []
  | r :: rest => handleRequest r :: serveLoop rest

/-- An event seen by the accept loop: an accepted request, or a
KeyboardInterrupt (Ctrl+C). -/
inductive Event where
  | request (r : Request)
  | interrupt
deriving Repr, DecidableEq

/-- Models CPython `BaseServer.serve_forever`: handle accepted requests
one at a time until a KeyboardInterrupt propagates out of the loop;
events after the interrupt are never processed. -/
def serve_forever : List Event → List (List String)
  | [] => []
  | Event.interrupt :: _ => []
  | Event.request r :: rest => handleRequest r :: serve_forever rest

/-- Startup bind failures of `socketserver.TCPServer` (src/server.py
line 20): the address is already in use, or binding is not permitted. -/
inductive BindError where
  | addrInUse
  | permissionDenied
deriving Repr, DecidableEq

/-- The fixed listening port (src/server.py line 10). -/
def PORT : Nat := 8080

/-- The wildcard bind host: the empty host string passed to
`socketserver.TCPServer` means all interfaces (0.0.0.0 / INADDR_ANY). -/
def wildcardHost : String := ""

/-- The address tuple `("", PORT)` passed to `socketserver.TCPServer`
(src/server.py line 20). PORT is a plain immutable constant; nothing in
the program rebinds it. -/
def serverAddress : String × Nat := (wildcardHost, PORT)

/-- The three lines printed to standard output at startup
(src/server.py lines 21-23). -/
def startupOutput : List String :=
  ["Server running at http://localhost:" ++ toString PORT,
   "SharedArrayBuffer headers enabled for FFMPEG.wasm support",
   "Press Ctrl+C to stop"]

/-- Models the module body (src/server.py lines 20-24): construct the
server — whose bind outcome is the first argument — then print the three
startup lines and run the accept loop. The `with` statement has no
exception handler in the source, so a bind failure propagates out before
anything is printed or served; on success the result is the startup
output and the per-request responses. -/
def main_run (bind : Except BindError Unit) (events : List Event) :
    Except BindError (List String × List (List String)) :=
  match bind with
  | Except.error e => Except.error e
  | Except.ok _ => Except.ok (startupOutput, serve_forever events)

/-- Process exit status: an uncaught Python exception terminates the
interpreter with a non-zero status. -/
def exitCode : Except BindError (List String × List (List String)) → Nat
  | Except.error _ => 1
  | Except.ok _ => 0

/-- Connection-scheduling strategies in CPython `socketserver`:
`BaseServer.process_request` runs `finish_request` inline in the
accepting thread (one connection handled at a time, serially);
`ThreadingMixIn` overrides `process_request` to start a new thread per
connection; `ForkingMixIn` forks a new process per connection. -/
inductive ConnectionScheduling where
  | serialInThread
  | threadPerConnection
  | processPerConnection
deriving Repr, DecidableEq

/-- Scheduling of plain `socketserver.TCPServer` (no mixin): serial,
inline in the accepting thread. -/
def TCPServer_scheduling : ConnectionScheduling := ConnectionScheduling.serialInThread

/-- Scheduling of `socketserver.ThreadingTCPServer`. -/
def ThreadingTCPServer_scheduling : ConnectionScheduling :=
  ConnectionScheduling.threadPerConnection

/-- Scheduling of `socketserver.ForkingTCPServer`. -/
def ForkingTCPServer_scheduling : ConnectionScheduling :=
  ConnectionScheduling.processPerConnection

/-- The server class the source instantiates on line 20 is plain
`socketserver.TCPServer`. -/
def usedServer_scheduling : ConnectionScheduling := TCPServer_scheduling

theorem send_header_requestVersion (s : HandlerState) (k v : String) :
    (send_header s k v).requestVersion = s.requestVersion := rfl

theorem send_header_wire (s : HandlerState) (k v : String) :
    (send_header s k v).wire = s.wire := rfl

theorem send_header_log (s : HandlerState) (k v : String) :
    (send_header s k v).log = s.log := rfl

theorem send_header_buffer (s : HandlerState) (k v : String)
    (h : s.requestVersion ≠ HTTP09) :
    (send_header s k v).headersBuffer = s.headersBuffer ++ [headerLine (k, v)] := by
  simp [send_header, headerLine, h]

theorem send_headers_requestVersion (hs : List (String × String)) :
    ∀ s : HandlerState, (send_headers s hs).requestVersion = s.requestVersion := by
  induction hs with
  | nil => intro s; rfl
  | cons kv rest ih =>
    intro s
    simpa [send_headers] using ih (send_header s kv.1 kv.2)

theorem send_headers_wire (hs : List (String × String)) :
    ∀ s : HandlerState, (send_headers s hs).wire = s.wire := by
  induction hs with
  | nil => intro s; rfl
  | cons kv rest ih =>
    intro s
    simpa [send_headers] using ih (send_header s kv.1 kv.2)

theorem send_headers_log (hs : List (String × String)) :
    ∀ s : HandlerState, (send_headers s hs).log = s.log := by
  induction hs with
  | nil => intro s; rfl
  | cons kv rest ih =>
    intro s
    simpa [send_headers] using ih (send_header s kv.1 kv.2)

theorem send_headers_buffer (hs : List (String × String)) :
    ∀ s : HandlerState, s.requestVersion ≠ HTTP09 →
      (send_headers s hs).headersBuffer = s.headersBuffer ++ hs.map headerLine := by
  induction hs with
  | nil => intro s _; simp [send_headers]
  | cons kv rest ih =>
    intro s h
    have hv : (send_header s kv.1 kv.2).requestVersion ≠ HTTP09 := h
    calc (send_headers (send_header s kv.1 kv.2) rest).headersBuffer
        = (send_header s kv.1 kv.2).headersBuffer ++ rest.map headerLine := ih _ hv
      _ = s.headersBuffer ++ (kv :: rest).map headerLine := by
          rw [send_header_buffer s kv.1 kv.2 h]
          simp

theorem send_response_only_requestVersion (s : HandlerState) (code : Nat) (m : String) :
    (send_response_only s code m).requestVersion = s.requestVersion := by
  unfold send_response_only
  split <;> rfl

theorem send_response_requestVersion (s : HandlerState) (code : Nat) (m sv dt : String) :
    (send_response s code m sv dt).requestVersion = s.requestVersion := by
  simp [send_response, send_header_requestVersion, send_response_only_requestVersion,
    log_request]

theorem send_response_spec (s : HandlerState) (code : Nat) (m sv dt : String)
    (h : s.requestVersion ≠ HTTP09) :
    (send_response s code m sv dt).headersBuffer =
        s.headersBuffer ++
          [statusLine code m, headerLine ("Server", sv), headerLine ("Date", dt)] ∧
      (send_response s code m sv dt).wire = s.wire ∧
      (send_response s code m sv dt).requestVersion = s.requestVersion ∧
      (send_response s code m sv dt).log =
        s.log ++ [s.requestLine ++ " " ++ toString code ++ " -"] := by
  refine ⟨?_, ?_, send_response_requestVersion s code m sv dt, ?_⟩
  · rw [send_response, send_header_buffer, send_header_buffer, send_response_only,
      if_pos]
    · simp [log_request, headerLine]
    · exact h
    · simpa [send_response_only_requestVersion, log_request] using h
    · simpa [send_header_requestVersion, send_response_only_requestVersion,
        log_request] using h
  · simp [send_response, send_header_wire, send_response_only, log_request]
    split <;> rfl
  · simp [send_response, send_header_log, send_response_only, log_request]
    split <;> rfl

theorem log_error_fields (s : HandlerState) (code : Nat) (m : String) :
    (log_error s code m).requestVersion = s.requestVersion ∧
      (log_error s code m).headersBuffer = s.headersBuffer ∧
      (log_error s code m).wire = s.wire :=
  ⟨rfl, rfl, rfl⟩

theorem serveLoop_eq_map (rs : List Request) :
    serveLoop rs = rs.map handleRequest := by
  induction rs with
  | nil => rfl
  | cons r rest ih => simp [serveLoop, ih]

theorem serve_forever_until_interrupt (pre : List Request) (post : List Event) :
    serve_forever (pre.map Event.request ++ Event.interrupt :: post) =
      pre.map handleRequest := by
  induction pre with
  | nil => rfl
  | cons r rest ih => simp [serve_forever, ih]

theorem send_error_404_as_sends (eh : HandlerState → HandlerState)
    (s : HandlerState) (sv dt : String) (n : Nat) :
    send_error_404 eh s sv dt n =
      eh (send_headers
        (send_response (log_error s 404 "File not found") 404 "File not found" sv dt)
        [("Connection", "close"), ("Content-Type", "text/html;charset=utf-8"),
         ("Content-Length", toString n)]) := rfl

theorem send_error_404_wire (s : HandlerState) (sv dt : String) (n : Nat)
    (h : s.requestVersion ≠ HTTP09) :
    (send_error_404 CORS_end_headers s sv dt n).wire =
        s.wire ++ s.headersBuffer ++
          [statusLine 404 "File not found", headerLine ("Server", sv),
           headerLine ("Date", dt), headerLine ("Connection", "close"),
           headerLine ("Content-Type", "text/html;charset=utf-8"),
           headerLine ("Content-Length", toString n),
           COOP_line, COEP_line, "\r\n"] ∧
      (send_error_404 base_end_headers s sv dt n).wire =
        s.wire ++ s.headersBuffer ++
          [statusLine 404 "File not found", headerLine ("Server", sv),
           headerLine ("Date", dt), headerLine ("Connection", "close"),
           headerLine ("Content-Type", "text/html;charset=utf-8"),
           headerLine ("Content-Length", toString n), "\r\n"] := by
  have hle : (log_error s 404 "File not found").requestVersion ≠ HTTP09 := h
  have hsr :
      (send_response (log_error s 404 "File not found") 404 "File not found" sv dt).requestVersion
        ≠ HTTP09 := by
    rw [send_response_requestVersion]
    exact hle
  have hrs := send_response_spec (log_error s 404 "File not found") 404 "File not found"
    sv dt hle
  have hv : (send_headers
      (send_response (log_error s 404 "File not found") 404 "File not found" sv dt)
      [("Connection", "close"), ("Content-Type", "text/html;charset=utf-8"),
       ("Content-Length", toString n)]).requestVersion ≠ HTTP09 := by
    rw [send_headers_requestVersion]
    exact hsr
  have hw : (send_headers
      (send_response (log_error s 404 "File not found") 404 "File not found" sv dt)
      [("Connection", "close"), ("Content-Type", "text/html;charset=utf-8"),
       ("Content-Length", toString n)]).wire = s.wire := by
    rw [send_headers_wire, hrs.2.1]
    rfl
  have hb : (send_headers
      (send_response (log_error s 404 "File not found") 404 "File not found" sv dt)
      [("Connection", "close"), ("Content-Type", "text/html;charset=utf-8"),
       ("Content-Length", toString n)]).headersBuffer =
      s.headersBuffer ++
        [statusLine 404 "File not found", headerLine ("Server", sv),
         headerLine ("Date", dt), headerLine ("Connection", "close"),
         headerLine ("Content-Type", "text/html;charset=utf-8"),
         headerLine ("Content-Length", toString n)] := by
    rw [send_headers_buffer _ _ hsr, hrs.1]
    simp [log_error]
  constructor
  · rw [send_error_404_as_sends, CORS_end_headers_spec _ hv]
    simp [hw, hb]
  · rw [send_error_404_as_sends, base_end_headers_spec _ hv]
    simp [hw, hb]

theorem send_response_only_wire (s : HandlerState) (code : Nat) (m : String) :
    (send_response_only s code m).wire = s.wire := by
  unfold send_response_only
  split <;> rfl

theorem send_response_wire (s : HandlerState) (code : Nat) (m sv dt : String) :
    (send_response s code m sv dt).wire = s.wire := by
  simp [send_response, send_header_wire, send_response_only_wire, log_request]

theorem GET_ok_wire_http09 (rl sv dt ct cl lm : String) :
    GET_ok_wire HTTP09 rl sv dt ct cl lm = [] := by
  have hv : (send_headers (send_response (initState HTTP09 rl) 200 "OK" sv dt)
      [("Content-type", ct), ("Content-Length", cl), ("Last-Modified", lm)]).requestVersion
      = HTTP09 := by
    rw [send_headers_requestVersion, send_response_requestVersion]
    rfl
  rw [GET_ok_wire, CORS_end_headers_http09 _ hv, send_headers_wire, send_response_wire]
  rfl

/-- A concrete mid-response handler state: an HTTP/1.1 GET whose base
handler has buffered a status line and one header, with `end_headers` not
yet called. -/
def exampleState : HandlerState :=
  { requestVersion := "HTTP/1.1"
    requestLine := "GET /index.html HTTP/1.1"
    headersBuffer := [statusLine 200 "OK", headerLine ("Content-type", "text/html")]
    wire := []
    closeConnection := true
    log := [] }

/-- A concrete successful request. -/
def reqA : Request :=
  { version := "HTTP/1.1"
    requestLine := "GET /index.html HTTP/1.1"
    code := 200
    message := "OK"
    serverVersion := "SimpleHTTP/0.6 Python/3.12.0"
    dateTime := "Mon, 01 Jan 2024 00:00:00 GMT"
    baseHeaders := [("Content-type", "text/html"), ("Content-Length", "5")] }

/-- A concrete distinct request interposed between two identical ones. -/
def reqB : Request :=
  { version := "HTTP/1.1"
    requestLine := "GET /other.txt HTTP/1.1"
    code := 200
    message := "OK"
    serverVersion := "SimpleHTTP/0.6 Python/3.12.0"
    dateTime := "Mon, 01 Jan 2024 00:00:00 GMT"
    baseHeaders := [("Content-type", "text/plain"), ("Content-Length", "7")] }

/-- C1 counterexample: for an HTTP/0.9 GET of an existing file the server
emits no header block at all, so the response does not carry the two
injected headers — the claim as stated (every response, with no
restriction on protocol version) is false at this concrete input. -/
theorem claim_C1_counterexample :
    GET_ok_wire "HTTP/0.9" "GET /index.html" "SimpleHTTP/0.6 Python/3.12.0"
        "Mon, 01 Jan 2024 00:00:00 GMT" "text/html" "5"
        "Mon, 01 Jan 2024 00:00:00 GMT" = [] ∧
      COOP_line ∉ GET_ok_wire "HTTP/0.9" "GET /index.html" "SimpleHTTP/0.6 Python/3.12.0"
        "Mon, 01 Jan 2024 00:00:00 GMT" "text/html" "5"
        "Mon, 01 Jan 2024 00:00:00 GMT" ∧
      COEP_line ∉ GET_ok_wire "HTTP/0.9" "GET /index.html" "SimpleHTTP/0.6 Python/3.12.0"
        "Mon, 01 Jan 2024 00:00:00 GMT" "text/html" "5"
        "Mon, 01 Jan 2024 00:00:00 GMT" := by
  have h := GET_ok_wire_http09 "GET /index.html" "SimpleHTTP/0.6 Python/3.12.0"
    "Mon, 01 Jan 2024 00:00:00 GMT" "text/html" "5" "Mon, 01 Jan 2024 00:00:00 GMT"
  refine ⟨h, ?_, ?_⟩ <;> rw [show ("HTTP/0.9" : String) = HTTP09 from rfl, h] <;> simp

/-- C1 (amended): for every response to a request whose protocol version
is not HTTP/0.9 — any path, method, status code, and any header lines the
base handler produced — the emitted header block contains the line
`Cross-Origin-Opener-Policy: same-origin` and the line
`Cross-Origin-Embedder-Policy: credentialless`. -/
theorem claim_C1 (s : HandlerState) (h : s.requestVersion ≠ HTTP09) :
    COOP_line ∈ (CORS_end_headers s).wire ∧ COEP_line ∈ (CORS_end_headers s).wire := by
  rw [CORS_end_headers_spec s h]
  constructor <;> simp

/-- C1 witness: the amended claim at a concrete HTTP/1.1 request state. -/
theorem claim_C1_witness :
    COOP_line ∈ (CORS_end_headers exampleState).wire ∧
      COEP_line ∈ (CORS_end_headers exampleState).wire :=
  claim_C1 exampleState (by decide)

/-- C2: for any response state in which the base handler has buffered its
status line and headers (and nothing was yet written to the socket, the
injected lines not among the base lines), the overridden `end_headers`
emits the header block exactly once, as the base-handler lines followed by
the two injected lines followed by the terminating blank line; each
injected line occurs exactly once in the emitted block. -/
theorem claim_C2 (s : HandlerState) (h : s.requestVersion ≠ HTTP09)
    (hw : s.wire = []) (h1 : COOP_line ∉ s.headersBuffer)
    (h2 : COEP_line ∉ s.headersBuffer) :
    (CORS_end_headers s).wire = s.headersBuffer ++ [COOP_line, COEP_line, "\r\n"] ∧
      (CORS_end_headers s).wire.count COOP_line = 1 ∧
      (CORS_end_headers s).wire.count COEP_line = 1 := by
  rw [CORS_end_headers_spec s h]
  refine ⟨by simp [hw], ?_, ?_⟩ <;>
    simp [hw, List.count_append, List.count_eq_zero.mpr h1,
      List.count_eq_zero.mpr h2, List.count_cons] <;> decide

/-- C2 witness: the claim at a concrete response state. -/
theorem claim_C2_witness :
    (CORS_end_headers exampleState).wire =
        exampleState.headersBuffer ++ [COOP_line, COEP_line, "\r\n"] ∧
      (CORS_end_headers exampleState).wire.count COOP_line = 1 ∧
      (CORS_end_headers exampleState).wire.count COEP_line = 1 :=
  claim_C2 exampleState (by decide) rfl (by decide) (by decide)

/-- C4: a bind failure at startup propagates unchanged out of the `with`
statement — the process result is exactly that error, the exit status is
non-zero (1), and no request is served and no retry happens. -/
theorem claim_C4 (e : BindError) (events : List Event) :
    main_run (Except.error e) events = Except.error e ∧
      exitCode (main_run (Except.error e) events) = 1 :=
  ⟨rfl, rfl⟩

/-- C5: header production is stateless across requests — if the requests
at positions i and j of the accepted-request sequence are identical, the
header blocks the server produces at those positions are identical,
however many other requests lie between them. -/
theorem claim_C5 (rs : List Request) (i j : Nat) (hij : rs[i]? = rs[j]?) :
    (serveLoop rs)[i]? = (serveLoop rs)[j]? := by
  rw [serveLoop_eq_map, List.getElem?_map, List.getElem?_map, hij]

/-- C5 witness: identical first and third requests, a different request
between them, give identical first and third responses. -/
theorem claim_C5_witness :
    (serveLoop [reqA, reqB, reqA])[0]? = (serveLoop [reqA, reqB, reqA])[2]? :=
  claim_C5 [reqA, reqB, reqA] 0 2 (by decide)

/-- C6: the server address handed to `socketserver.TCPServer` is the
wildcard host (empty string, i.e. all interfaces / 0.0.0.0) together with
the immutable constant PORT, whose value is 8080. -/
theorem claim_C6 :
    serverAddress = (wildcardHost, PORT) ∧ PORT = 8080 ∧ wildcardHost = "" ∧
      serverAddress = ("", 8080) :=
  ⟨rfl, rfl, rfl, rfl⟩

/-- C9 counterexample: the server class instantiated on src/server.py
line 20 is plain `socketserver.TCPServer`, whose connection acceptor is
not one-thread-per-connection and not one-process-per-connection. -/
theorem claim_C9_counterexample :
    usedServer_scheduling ≠ ConnectionScheduling.threadPerConnection ∧
      usedServer_scheduling ≠ ConnectionScheduling.processPerConnection := by
  decide

/-- C9 (amended): the source instantiates plain `socketserver.TCPServer`,
whose acceptor handles connections serially, inline in the accepting
thread; connection handling is still delegated entirely to the base
library's strategy. -/
theorem claim_C9 :
    usedServer_scheduling = ConnectionScheduling.serialInThread ∧
      usedServer_scheduling = TCPServer_scheduling ∧
      TCPServer_scheduling ≠ ThreadingTCPServer_scheduling ∧
      TCPServer_scheduling ≠ ForkingTCPServer_scheduling := by
  refine ⟨rfl, rfl, ?_, ?_⟩ <;> decide

/-- C3: a GET whose path resolves to no file goes through the inherited
`send_error(404)` path: the emitted block starts with the 404 status
line, carries both injected header lines, and equals the block the
unmodified base handler would emit with exactly the two injected lines
inserted before the terminating blank line — nothing else intercepted or
altered. -/
theorem claim_C3 (version requestLine serverVersion dateTime : String) (bodyLen : Nat)
    (h : version ≠ HTTP09) :
    (send_error_404 CORS_end_headers (initState version requestLine)
        serverVersion dateTime bodyLen).wire =
        [statusLine 404 "File not found", headerLine ("Server", serverVersion),
         headerLine ("Date", dateTime), headerLine ("Connection", "close"),
         headerLine ("Content-Type", "text/html;charset=utf-8"),
         headerLine ("Content-Length", toString bodyLen),
         COOP_line, COEP_line, "\r\n"] ∧
      COOP_line ∈ (send_error_404 CORS_end_headers (initState version requestLine)
        serverVersion dateTime bodyLen).wire ∧
      COEP_line ∈ (send_error_404 CORS_end_headers (initState version requestLine)
        serverVersion dateTime bodyLen).wire ∧
      (send_error_404 CORS_end_headers (initState version requestLine)
          serverVersion dateTime bodyLen).wire =
        (send_error_404 base_end_headers (initState version requestLine)
            serverVersion dateTime bodyLen).wire.dropLast ++
          [COOP_line, COEP_line, "\r\n"] ∧
      (send_error_404 CORS_end_headers (initState version requestLine)
          serverVersion dateTime bodyLen).wire.head? =
        some (statusLine 404 "File not found") := by
  have h0 : (initState version requestLine).requestVersion ≠ HTTP09 := h
  obtain ⟨hc, hb⟩ := send_error_404_wire (initState version requestLine)
    serverVersion dateTime bodyLen h0
  rw [show (initState version requestLine).wire = [] from rfl,
    show (initState version requestLine).headersBuffer = [] from rfl] at hc hb
  simp only [List.nil_append] at hc hb
  refine ⟨hc, ?_, ?_, ?_, ?_⟩
  · rw [hc]; simp
  · rw [hc]; simp
  · rw [hc, hb]; simp [List.dropLast]
  · rw [hc]; rfl

/-- C3 witness: the claim at a concrete HTTP/1.1 GET of a missing path. -/
theorem claim_C3_witness :
    (send_error_404 CORS_end_headers
        (initState "HTTP/1.1" "GET /does-not-exist HTTP/1.1")
        "SimpleHTTP/0.6 Python/3.12.0" "Mon, 01 Jan 2024 00:00:00 GMT" 469).wire =
        [statusLine 404 "File not found",
         headerLine ("Server", "SimpleHTTP/0.6 Python/3.12.0"),
         headerLine ("Date", "Mon, 01 Jan 2024 00:00:00 GMT"),
         headerLine ("Connection", "close"),
         headerLine ("Content-Type", "text/html;charset=utf-8"),
         headerLine ("Content-Length", toString 469),
         COOP_line, COEP_line, "\r\n"] ∧
      COOP_line ∈ (send_error_404 CORS_end_headers
        (initState "HTTP/1.1" "GET /does-not-exist HTTP/1.1")
        "SimpleHTTP/0.6 Python/3.12.0" "Mon, 01 Jan 2024 00:00:00 GMT" 469).wire ∧
      COEP_line ∈ (send_error_404 CORS_end_headers
        (initState "HTTP/1.1" "GET /does-not-exist HTTP/1.1")
        "SimpleHTTP/0.6 Python/3.12.0" "Mon, 01 Jan 2024 00:00:00 GMT" 469).wire ∧
      (send_error_404 CORS_end_headers
          (initState "HTTP/1.1" "GET /does-not-exist HTTP/1.1")
          "SimpleHTTP/0.6 Python/3.12.0" "Mon, 01 Jan 2024 00:00:00 GMT" 469).wire =
        (send_error_404 base_end_headers
            (initState "HTTP/1.1" "GET /does-not-exist HTTP/1.1")
            "SimpleHTTP/0.6 Python/3.12.0" "Mon, 01 Jan 2024 00:00:00 GMT" 469).wire.dropLast ++
          [COOP_line, COEP_line, "\r\n"] ∧
      (send_error_404 CORS_end_headers
          (initState "HTTP/1.1" "GET /does-not-exist HTTP/1.1")
          "SimpleHTTP/0.6 Python/3.12.0" "Mon, 01 Jan 2024 00:00:00 GMT" 469).wire.head? =
        some (statusLine 404 "File not found") :=
  claim_C3 "HTTP/1.1" "GET /does-not-exist HTTP/1.1" "SimpleHTTP/0.6 Python/3.12.0"
    "Mon, 01 Jan 2024 00:00:00 GMT" 469 (by decide)

/-- C7: the override's entire effect relative to the base `end_headers`
is the two extra header lines placed before the terminator: every line
the base handler buffered or wrote is kept unchanged and in order, and
the request version, request line, `close_connection` flag and log are
untouched (no logging, no other state mutation). -/
theorem claim_C7 (s : HandlerState) (h : s.requestVersion ≠ HTTP09) :
    CORS_end_headers s =
        { s with
          headersBuffer := []
          wire := s.wire ++ s.headersBuffer ++ [COOP_line, COEP_line, "\r\n"] } ∧
      base_end_headers s =
        { s with
          headersBuffer := []
          wire := s.wire ++ s.headersBuffer ++ ["\r\n"] } ∧
      (CORS_end_headers s).log = s.log ∧
      (CORS_end_headers s).closeConnection = s.closeConnection ∧
      (CORS_end_headers s).requestVersion = s.requestVersion ∧
      (CORS_end_headers s).requestLine = s.requestLine := by
  have h1 := CORS_end_headers_spec s h
  have h2 := base_end_headers_spec s h
  exact ⟨h1, h2, by rw [h1], by rw [h1], by rw [h1], by rw [h1]⟩

/-- C7 witness: the frame property at a concrete response state. -/
theorem claim_C7_witness :
    CORS_end_headers exampleState =
        { exampleState with
          headersBuffer := []
          wire := exampleState.wire ++ exampleState.headersBuffer ++
            [COOP_line, COEP_line, "\r\n"] } ∧
      base_end_headers exampleState =
        { exampleState with
          headersBuffer := []
          wire := exampleState.wire ++ exampleState.headersBuffer ++ ["\r\n"] } ∧
      (CORS_end_headers exampleState).log = exampleState.log ∧
      (CORS_end_headers exampleState).closeConnection = exampleState.closeConnection ∧
      (CORS_end_headers exampleState).requestVersion = exampleState.requestVersion ∧
      (CORS_end_headers exampleState).requestLine = exampleState.requestLine :=
  claim_C7 exampleState (by decide)

/-- C8: on a successful bind the process prints the listening URL and the
stop instruction, then handles accepted requests until the first
interrupt, after which nothing further is processed and the run ends. -/
theorem claim_C8 (pre : List Request) (post : List Event) :
    main_run (Except.ok ()) (pre.map Event.request ++ Event.interrupt :: post) =
        Except.ok (startupOutput, pre.map handleRequest) ∧
      ("Server running at http://localhost:" ++ toString PORT) ∈ startupOutput ∧
      "Press Ctrl+C to stop" ∈ startupOutput := by
  refine ⟨?_, ?_, ?_⟩
  · simp [main_run, serve_forever_until_interrupt]
  · simp [startupOutput]
  · simp [startupOutput]

/-- C10: for an HTTP/0.9 request the inherited machinery writes no header
lines: `send_header` buffers nothing, the base `end_headers` and the
override send nothing, and the full header block of a successful GET is
empty — the response carries neither injected header. -/
theorem claim_C10 (s : HandlerState) (k v rl sv dt ct cl lm : String)
    (h : s.requestVersion = HTTP09) :
    (send_header s k v).headersBuffer = s.headersBuffer ∧
      (send_header s k v).wire = s.wire ∧
      base_end_headers s = s ∧
      CORS_end_headers s = s ∧
      GET_ok_wire HTTP09 rl sv dt ct cl lm = [] := by
  refine ⟨?_, rfl, ?_, CORS_end_headers_http09 s h,
    GET_ok_wire_http09 rl sv dt ct cl lm⟩
  · simp [send_header, h]
  · simp [base_end_headers, h]

/-- C10 witness: the claim at a concrete HTTP/0.9 request. -/
theorem claim_C10_witness :
    (send_header (initState HTTP09 "GET /index.html") "Content-type" "text/html").headersBuffer =
        (initState HTTP09 "GET /index.html").headersBuffer ∧
      (send_header (initState HTTP09 "GET /index.html") "Content-type" "text/html").wire =
        (initState HTTP09 "GET /index.html").wire ∧
      base_end_headers (initState HTTP09 "GET /index.html") =
        initState HTTP09 "GET /index.html" ∧
      CORS_end_headers (initState HTTP09 "GET /index.html") =
        initState HTTP09 "GET /index.html" ∧
      GET_ok_wire HTTP09 "GET /index.html" "SimpleHTTP/0.6 Python/3.12.0"
        "Mon, 01 Jan 2024 00:00:00 GMT" "text/html" "5"
        "Mon, 01 Jan 2024 00:00:00 GMT" = [] :=
  claim_C10 (initState HTTP09 "GET /index.html") "Content-type" "text/html"
    "GET /index.html" "SimpleHTTP/0.6 Python/3.12.0" "Mon, 01 Jan 2024 00:00:00 GMT"
    "text/html" "5" "Mon, 01 Jan 2024 00:00:00 GMT" rfl

theorem send_error_404_wire_http09 (s : HandlerState) (sv dt : String) (n : Nat)
    (h : s.requestVersion = HTTP09) :
    (send_error_404 CORS_end_headers s sv dt n).wire = s.wire := by
  have hv : (send_headers
      (send_response (log_error s 404 "File not found") 404 "File not found" sv dt)
      [("Connection", "close"), ("Content-Type", "text/html;charset=utf-8"),
       ("Content-Length", toString n)]).requestVersion = HTTP09 := by
    rw [send_headers_requestVersion, send_response_requestVersion]
    exact h
  rw [send_error_404_as_sends, CORS_end_headers_http09 _ hv, send_headers_wire,
    send_response_wire]
  rfl

/-- C3 counterexample: an HTTP/0.9 GET of the missing path
`/does-not-exist` goes through the inherited `send_error(404)`, but all
of its status and header writes are suppressed — the emitted header
block is empty, carrying no 404 status line and neither injected header,
so the claim as stated (every unresolvable-path request, with no
restriction on protocol version) is false at this concrete input. -/
theorem claim_C3_counterexample :
    (send_error_404 CORS_end_headers (initState "HTTP/0.9" "GET /does-not-exist")
        "SimpleHTTP/0.6 Python/3.12.0" "Mon, 01 Jan 2024 00:00:00 GMT" 469).wire = [] ∧
      statusLine 404 "File not found" ∉
        (send_error_404 CORS_end_headers (initState "HTTP/0.9" "GET /does-not-exist")
          "SimpleHTTP/0.6 Python/3.12.0" "Mon, 01 Jan 2024 00:00:00 GMT" 469).wire ∧
      COOP_line ∉
        (send_error_404 CORS_end_headers (initState "HTTP/0.9" "GET /does-not-exist")
          "SimpleHTTP/0.6 Python/3.12.0" "Mon, 01 Jan 2024 00:00:00 GMT" 469).wire ∧
      COEP_line ∉
        (send_error_404 CORS_end_headers (initState "HTTP/0.9" "GET /does-not-exist")
          "SimpleHTTP/0.6 Python/3.12.0" "Mon, 01 Jan 2024 00:00:00 GMT" 469).wire := by
  have h : (send_error_404 CORS_end_headers (initState "HTTP/0.9" "GET /does-not-exist")
      "SimpleHTTP/0.6 Python/3.12.0" "Mon, 01 Jan 2024 00:00:00 GMT" 469).wire = [] :=
    send_error_404_wire_http09 (initState "HTTP/0.9" "GET /does-not-exist")
      "SimpleHTTP/0.6 Python/3.12.0" "Mon, 01 Jan 2024 00:00:00 GMT" 469 rfl
  refine ⟨h, ?_, ?_, ?_⟩ <;> rw [h] <;> simp
